import Mathlib

/-!
# Rabb Ferenc watch face: embedding of `src/rabb-ferenc.c`

The C program is a Pebble watch face.  Its integer logic (tick gating, the
sleep window, the countdown, the static text buffers, the tick-mark loop) is
embedded here as Lean functions over `Int` and byte lists.

* `int` fields of `PblTm` are `Int`; every value the program computes from an
  in-range time is far below `2^31`, so no wrap-around is modelled.
* C division and remainder truncate toward zero: `Int.tdiv` and `Int.tmod`.
* A `char` buffer is a `List Nat` of byte values; a string literal is the list
  of its UTF-8 bytes (the source file is UTF-8).
* Calls into the host (layers, text layers, vibration) are recorded as a list
  of `HostCall`; calls on a graphics context are recorded as a list of
  `DrawCmd`, in program order.
* An array read outside the table (undefined behaviour in C) is `none`.
* `get_time(&now)` is the argument `now`.
-/

namespace RabbFerenc

/-! ## Data model -/

/-- The fields of the host's broken-down time `PblTm` that the program reads. -/
structure PblTm where
  tm_sec : Int
  tm_min : Int
  tm_hour : Int
  tm_mday : Int
  tm_mon : Int
  tm_wday : Int
deriving DecidableEq, Repr

def VIBRATION_SLEEP_START : Int := 22
def VIBRATION_SLEEP_END : Int := 5

def ICON_VIBE_ON : Nat := 0
def ICON_VIBE_OFF : Nat := 1

def FONT_ANALOG_NUMBERS : Nat := 0
def FONT_DIGITAL : Nat := 1
def FONT_DATE : Nat := 2
def FONT_COUNTDOWN : Nat := 3

def ANALOG_RADIUS : Int := 32
def ANALOG_OFFSET : Int := 12
def ANALOG_LENGTH_SECOND : Int := 27
def ANALOG_LENGTH_MINUTE : Int := 21
def ANALOG_LENGTH_HOUR : Int := 15
def ANALOG_WIDTH_HOUR : Int := 3
def ANALOG_WIDTH_MINUTE : Int := 3
def ANALOG_INNER_RADIUS : Int := 3

def COUNTDOWN_MINUTE : Int := 50

/-- The bytes of a C string literal (without the terminating NUL). -/
def c_literal (s : String) : List Nat :=
  (s.data.flatMap String.utf8EncodeChar).map UInt8.toNat

def date_days : List (List Nat) :=
  [c_literal "Vasárnap", c_literal "Hétfő", c_literal "Kedd", c_literal "Szerda",
   c_literal "Csütörtök", c_literal "Péntek", c_literal "Szombat"]

def date_months : List (List Nat) :=
  [c_literal "Jan", c_literal "Febr", c_literal "Márc", c_literal "Ápr", c_literal "Máj",
   c_literal "Jún", c_literal "Júl", c_literal "Aug", c_literal "Szept", c_literal "Okt",
   c_literal "Nov", c_literal "Dec"]

/-- The layers of the window (the global `Layer` and `TextLayer` objects). -/
inductive LayerId where
  | layer_clock_digital
  | layer_date
  | layer_clock_analog_background
  | layer_clock_analog_hour
  | layer_clock_analog_minute
  | layer_clock_analog_second
  | layer_countdown
deriving DecidableEq, Repr

/-- The host calls the tick and window handlers make. `text_layer_set_text`
carries the C string found in the buffer it is given. -/
inductive HostCall where
  | layer_mark_dirty (layer : LayerId)
  | text_layer_set_text (layer : LayerId) (text : List Nat)
  | vibes_enqueue_custom_pattern (durations : List Nat)
deriving DecidableEq, Repr

structure GPoint where
  x : Int
  y : Int
deriving DecidableEq, Repr

structure GSize where
  w : Int
  h : Int
deriving DecidableEq, Repr

structure GRect where
  origin : GPoint
  size : GSize
deriving DecidableEq, Repr

inductive GColor where
  | GColorWhite
  | GColorBlack
deriving DecidableEq, Repr

inductive GTextAlignment where
  | GTextAlignmentLeft
  | GTextAlignmentCenter
deriving DecidableEq, Repr

def COLOR_FOREGROUND : GColor := GColor.GColorWhite
def COLOR_BACKGROUND : GColor := GColor.GColorBlack

/-- The calls a layer update procedure makes on its graphics context. A font
or an icon is its index in `fonts` or `icons`. -/
inductive DrawCmd where
  | graphics_context_set_fill_color (c : GColor)
  | graphics_context_set_stroke_color (c : GColor)
  | graphics_text_draw (text : List Nat) (font : Nat) (box : GRect) (alignment : GTextAlignment)
  | graphics_draw_line (p0 p1 : GPoint)
  | graphics_fill_circle (center : GPoint) (radius : Int)
  | graphics_draw_bitmap_in_rect (icon : Nat) (rect : GRect)
deriving DecidableEq, Repr

/-- The floating-point part of the program, taken as a parameter:
`point r min` stands for the `GPoint`
`{ ANALOG_OFFSET + ANALOG_RADIUS + (r * cos(angle_from_minute(min))),
   ANALOG_OFFSET + ANALOG_RADIUS + (r * sin(angle_from_minute(min))) }`,
that is `angle_from_minute`, `degtorad`, `cos`, `sin` in `double` and the
conversion of the sums to pixel coordinates. -/
structure Trig where
  point : Int → Int → GPoint

/-! ## C strings and the formatting functions -/

/-- The C string stored in a buffer: the bytes before the first NUL. -/
def c_string (buf : List Nat) : List Nat :=
  buf.takeWhile (fun b => b != 0)

/-- Overwrite a buffer from its start with the given bytes. -/
def write_bytes (buf bytes : List Nat) : List Nat :=
  bytes ++ buf.drop bytes.length

/-- The conversion `%d` of `printf`. -/
def format_d (n : Int) : List Nat :=
  if n < 0 then 45 :: (Nat.toDigits 10 n.natAbs).map Char.toNat
  else (Nat.toDigits 10 n.natAbs).map Char.toNat

/-- The call `snprintf(buf, size, ...)` where `formatted` is the expansion of
the format: at most `size - 1` bytes of it are stored, then a NUL. -/
def snprintf (buf : List Nat) (size : Nat) (formatted : List Nat) : List Nat :=
  if size = 0 then buf else write_bytes buf (formatted.take (size - 1) ++ [0])

/-- The call `strncpy(dest, src, n)` for a NUL-free `src`: exactly `n` bytes are
written, those of `src` and then NULs when `src` is shorter than `n`. -/
def strncpy (dest src : List Nat) (n : Nat) : List Nat :=
  write_bytes dest ((src ++ List.replicate n 0).take n)

/-- A field of `strftime` printed on two digits with a leading zero. -/
def format_02d (n : Int) : List Nat :=
  if 0 ≤ n ∧ n < 10 then 48 :: format_d n else format_d n

/-- The host call `string_format_time(buf, size, "%H:%M", now)`. -/
def string_format_time_HM (buf : List Nat) (size : Nat) (now : PblTm) : List Nat :=
  snprintf buf size (format_02d now.tm_hour ++ [58] ++ format_02d now.tm_min)

/-! ## The sleep window and the countdown -/

def sleep_time (now : PblTm) : Bool :=
  if now.tm_hour ≥ VIBRATION_SLEEP_START then true
  else if now.tm_hour = VIBRATION_SLEEP_START - 1 ∧ now.tm_min > COUNTDOWN_MINUTE then true
  else if now.tm_hour ≤ VIBRATION_SLEEP_END then true
  else false

/-- The local `minutes_to_vibrate` of `countdown_update`, computed on the
branch where `sleep_time` is false. -/
def minutes_to_vibrate (now : PblTm) : Int :=
  if now.tm_min ≤ COUNTDOWN_MINUTE then COUNTDOWN_MINUTE - now.tm_min
  else 60 - (now.tm_min - COUNTDOWN_MINUTE)

/-- The initial value of `static char countdown_str[5] = "--"`. -/
def countdown_str_init : List Nat := [45, 45, 0, 0, 0]

def countdown_icon_rect : GRect := ⟨⟨11, 12⟩, ⟨28, 28⟩⟩
def countdown_text_rect : GRect := ⟨⟨0, 36⟩, ⟨50, 28⟩⟩

/-- The update procedure of the countdown layer: the static buffer
`countdown_str` is passed in and returned with the draw calls. -/
def countdown_update (countdown_str : List Nat) (now : PblTm) : List Nat × List DrawCmd :=
  if ! sleep_time now then
    let str := snprintf countdown_str 5 (format_d (minutes_to_vibrate now))
    (str, [DrawCmd.graphics_draw_bitmap_in_rect ICON_VIBE_ON countdown_icon_rect,
           DrawCmd.graphics_text_draw (c_string str) FONT_COUNTDOWN countdown_text_rect
             GTextAlignment.GTextAlignmentCenter])
  else
    let str := strncpy countdown_str (c_literal "--") 2
    (str, [DrawCmd.graphics_draw_bitmap_in_rect ICON_VIBE_OFF countdown_icon_rect,
           DrawCmd.graphics_text_draw (c_string str) FONT_COUNTDOWN countdown_text_rect
             GTextAlignment.GTextAlignmentCenter])

/-- Successive renderings of the countdown layer, the static buffer carried
from one call to the next; the draw calls of each rendering are listed. -/
def countdown_updates : List Nat → List PblTm → List Nat × List (List DrawCmd)
  | buf, [] => (buf, [])
  | buf, now :: rest =>
    let r := countdown_update buf now
    let rs := countdown_updates r.1 rest
    (rs.1, r.2 :: rs.2)

/-! ## Tick and window handlers -/

/-- The static text buffers of the handlers: `time_str[10]` of
`update_digital_clock` and `date_str[50]` of `update_date`. -/
structure Statics where
  time_str : List Nat
  date_str : List Nat
deriving DecidableEq, Repr

/-- Static storage is zero-initialised. -/
def Statics.init : Statics := ⟨List.replicate 10 0, List.replicate 50 0⟩

/-- The read `table[i]` of a C array, `none` outside the array. -/
def table_get {α : Type} (table : List α) (i : Int) : Option α :=
  if 0 ≤ i then table[i.toNat]? else none

/-- The assignment to the global `clock_time`, which nothing reads, is left out. -/
def update_digital_clock (time_str : List Nat) (now : PblTm) : List Nat × List HostCall :=
  let str := string_format_time_HM time_str 10 now
  (str, [HostCall.text_layer_set_text LayerId.layer_clock_digital (c_string str)])

def update_analog_clock (now : PblTm) : List HostCall :=
  [HostCall.layer_mark_dirty LayerId.layer_clock_analog_second] ++
  (if now.tm_sec = 0 then
    [HostCall.layer_mark_dirty LayerId.layer_clock_analog_minute] ++
    (if now.tm_min.tmod 12 = 0 then
      [HostCall.layer_mark_dirty LayerId.layer_clock_analog_hour]
    else [])
  else [])

def update_countdown (_now : PblTm) : List HostCall :=
  [HostCall.layer_mark_dirty LayerId.layer_countdown]

/-- The format `"%s %d. %s"` applied to a month name, a day and a weekday name. -/
def format_date (month : List Nat) (mday : Int) (day : List Nat) : List Nat :=
  month ++ [32] ++ format_d mday ++ [46, 32] ++ day

def update_date (date_str : List Nat) (now : PblTm) : Option (List Nat × List HostCall) :=
  match table_get date_months now.tm_mon, table_get date_days now.tm_wday with
  | some month, some day =>
    let str := snprintf date_str 50 (format_date month now.tm_mday day)
    some (str, [HostCall.text_layer_set_text LayerId.layer_date (c_string str)])
  | _, _ => none

def vibe_segments : List Nat := [700, 100, 700, 100, 700]

def do_vibration (now : PblTm) : List HostCall :=
  if sleep_time now then []
  else [HostCall.vibes_enqueue_custom_pattern vibe_segments]

def handle_tick (st : Statics) (t : PblTm) : Option (Statics × List HostCall) :=
  let calls := update_analog_clock t
  if t.tm_sec = 0 then
    let digital := update_digital_clock st.time_str t
    let st := { st with time_str := digital.1 }
    let calls := calls ++ digital.2 ++ update_countdown t
    if t.tm_min = COUNTDOWN_MINUTE then
      some (st, calls ++ do_vibration t)
    else if t.tm_min = 0 then
      if t.tm_hour = 0 then
        match update_date st.date_str t with
        | some date => some ({ st with date_str := date.1 }, calls ++ date.2)
        | none => none
      else some (st, calls)
    else some (st, calls)
  else some (st, calls)

def handle_window_appear (st : Statics) (now : PblTm) : Option (Statics × List HostCall) :=
  let calls := update_analog_clock now
  let digital := update_digital_clock st.time_str now
  let st := { st with time_str := digital.1 }
  let calls := calls ++ digital.2 ++ update_countdown now
  match update_date st.date_str now with
  | some date => some ({ st with date_str := date.1 }, calls ++ date.2)
  | none => none

/-- The ticks of a list delivered one after the other, the static buffers
carried along; the host calls of each tick are listed. -/
def handle_ticks : Statics → List PblTm → Option (Statics × List (List HostCall))
  | st, [] => some (st, [])
  | st, t :: rest =>
    match handle_tick st t with
    | none => none
    | some r =>
      match handle_ticks r.1 rest with
      | none => none
      | some rs => some (rs.1, r.2 :: rs.2)

/-- The 86400 tick times of the day with the given date, in order. -/
def day_ticks (mday mon wday : Int) : List PblTm :=
  (List.range 24).flatMap fun h : Nat =>
    (List.range 60).flatMap fun m : Nat =>
      (List.range 60).map fun s : Nat =>
        (⟨(s : Int), (m : Int), (h : Int), mday, mon, wday⟩ : PblTm)

/-- The layer a host call asks to redraw or update, if any. -/
def HostCall.target : HostCall → Option LayerId
  | HostCall.layer_mark_dirty l => some l
  | HostCall.text_layer_set_text l _ => some l
  | HostCall.vibes_enqueue_custom_pattern _ => none

/-- The number of redraw or update requests for a layer among host calls. -/
def requests (l : LayerId) (calls : List HostCall) : Nat :=
  calls.countP fun c => c.target = some l

/-- The vibration patterns enqueued among host calls. -/
def vibrations (calls : List HostCall) : List (List Nat) :=
  calls.filterMap fun c =>
    match c with
    | HostCall.vibes_enqueue_custom_pattern d => some d
    | _ => none

/-! ## The analog clock -/

def analog_center : GPoint := ⟨ANALOG_OFFSET + ANALOG_RADIUS, ANALOG_OFFSET + ANALOG_RADIUS⟩

/-- The integer expression `-90 + (6 * min)` that `angle_from_minute` hands to
`degtorad`: the angle in degrees. -/
def angle_from_minute_degrees (min : Int) : Int :=
  -90 + (6 * min)

/-- The local `line_length` of the tick loop after its two `if` statements. -/
def tick_line_length (m : Int) : Int :=
  let line_length := 1
  let line_length := if m.tmod 5 = 0 then 3 else line_length
  let line_length := if m.tmod 15 = 0 then 5 else line_length
  line_length

/-- The loop `for (int m = 0; m < 60; m += 1)` of the background, from `m` on. -/
def background_ticks (T : Trig) (m : Int) : List DrawCmd :=
  if m < 60 then
    DrawCmd.graphics_draw_line
      (T.point (ANALOG_RADIUS - tick_line_length m) m) (T.point ANALOG_RADIUS m)
      :: background_ticks T (m + 1)
  else []
termination_by (60 - m).toNat
decreasing_by omega

def analog_clock_update_background (T : Trig) : List DrawCmd :=
  [DrawCmd.graphics_context_set_fill_color COLOR_FOREGROUND,
   DrawCmd.graphics_context_set_stroke_color COLOR_FOREGROUND,
   DrawCmd.graphics_text_draw (c_literal "12") FONT_ANALOG_NUMBERS
     ⟨⟨ANALOG_RADIUS + ANALOG_OFFSET - 20, 0⟩, ⟨40, 10⟩⟩ GTextAlignment.GTextAlignmentCenter,
   DrawCmd.graphics_text_draw (c_literal "3") FONT_ANALOG_NUMBERS
     ⟨⟨ANALOG_RADIUS * 2 + ANALOG_OFFSET + 3, ANALOG_RADIUS + ANALOG_OFFSET - 7⟩, ⟨40, 10⟩⟩
     GTextAlignment.GTextAlignmentLeft,
   DrawCmd.graphics_text_draw (c_literal "6") FONT_ANALOG_NUMBERS
     ⟨⟨ANALOG_RADIUS + ANALOG_OFFSET - 20, ANALOG_RADIUS * 2 + ANALOG_OFFSET - 1⟩, ⟨40, 10⟩⟩
     GTextAlignment.GTextAlignmentCenter,
   DrawCmd.graphics_text_draw (c_literal "9") FONT_ANALOG_NUMBERS
     ⟨⟨0 + 3, ANALOG_RADIUS + ANALOG_OFFSET - 7⟩, ⟨40, 10⟩⟩ GTextAlignment.GTextAlignmentLeft]
  ++ background_ticks T 0
  ++ [DrawCmd.graphics_fill_circle analog_center ANALOG_INNER_RADIUS]

/-- The lines among draw calls, in order. -/
def drawn_lines (cmds : List DrawCmd) : List (GPoint × GPoint) :=
  cmds.filterMap fun c =>
    match c with
    | DrawCmd.graphics_draw_line p0 p1 => some (p0, p1)
    | _ => none

/-- The local `hour_minutes` of `analog_clock_update_hour`. -/
def hour_minutes (now : PblTm) : Int :=
  now.tm_hour * 5 + now.tm_min.tdiv 12

/-- The loop `for (int w = 1; w <= width; w += 1)` of a tapered hand, from `w` on. -/
def hand_lines (T : Trig) (outer : GPoint) (value width w : Int) : List DrawCmd :=
  if w ≤ width then
    [DrawCmd.graphics_draw_line (T.point w (value - 15)) outer,
     DrawCmd.graphics_draw_line (T.point w (value + 15)) outer,
     DrawCmd.graphics_draw_line analog_center outer]
    ++ hand_lines T outer value width (w + 1)
  else []
termination_by (width + 1 - w).toNat
decreasing_by omega

def analog_clock_update_hour (T : Trig) (now : PblTm) : List DrawCmd :=
  [DrawCmd.graphics_context_set_fill_color COLOR_FOREGROUND,
   DrawCmd.graphics_context_set_stroke_color COLOR_FOREGROUND]
  ++ hand_lines T (T.point ANALOG_LENGTH_HOUR (hour_minutes now)) (hour_minutes now)
       ANALOG_WIDTH_HOUR 1

def analog_clock_update_minute (T : Trig) (now : PblTm) : List DrawCmd :=
  [DrawCmd.graphics_context_set_fill_color COLOR_FOREGROUND,
   DrawCmd.graphics_context_set_stroke_color COLOR_FOREGROUND]
  ++ hand_lines T (T.point ANALOG_LENGTH_MINUTE now.tm_min) now.tm_min ANALOG_WIDTH_MINUTE 1

def analog_clock_update_second (T : Trig) (now : PblTm) : List DrawCmd :=
  [DrawCmd.graphics_context_set_fill_color COLOR_FOREGROUND,
   DrawCmd.graphics_context_set_stroke_color COLOR_FOREGROUND,
   DrawCmd.graphics_draw_line (T.point ANALOG_LENGTH_SECOND now.tm_sec) analog_center]

/-! ## Observations and the specification's wording

What the statements below read off a run, and the renderings the
specification describes, to be compared with what the code produces. -/

/-- The decimal rendering of a number in 0..99, on one or two digits. -/
def decimal_digits (n : Int) : List Nat :=
  if n < 10 then [48 + n.toNat] else [48 + (n / 10).toNat, 48 + (n % 10).toNat]

/-- What the specification says one rendering of the countdown region shows:
the vibe-off icon and the text "--" in the sleep window, otherwise the vibe-on
icon and the minutes to the next vibration in decimal. -/
def countdown_drawing_spec (now : PblTm) : List DrawCmd :=
  if sleep_time now then
    [DrawCmd.graphics_draw_bitmap_in_rect ICON_VIBE_OFF countdown_icon_rect,
     DrawCmd.graphics_text_draw (c_literal "--") FONT_COUNTDOWN countdown_text_rect
       GTextAlignment.GTextAlignmentCenter]
  else
    [DrawCmd.graphics_draw_bitmap_in_rect ICON_VIBE_ON countdown_icon_rect,
     DrawCmd.graphics_text_draw (decimal_digits (minutes_to_vibrate now)) FONT_COUNTDOWN
       countdown_text_rect GTextAlignment.GTextAlignmentCenter]

/-- The time one minute earlier, as the claim describes it: the minute before
minute 0 is minute 59 of the hour before, hour 23 before hour 0. -/
def minute_before (now : PblTm) : PblTm :=
  if now.tm_min = 0 then { now with tm_hour := (now.tm_hour - 1) % 24, tm_min := 59 }
  else { now with tm_min := now.tm_min - 1 }

/-- The vibrations of a tick, as `vibrations_handle_tick` gives them. -/
def tick_vibrations (t : PblTm) : List (List Nat) :=
  if t.tm_sec = 0 ∧ t.tm_min = 50 ∧ sleep_time t = false then [vibe_segments] else []

/-- The ticks of a run that enqueued a vibration, each with what it enqueued. -/
def vibration_log (ts : List PblTm) (calls : List (List HostCall)) :
    List (PblTm × List (List Nat)) :=
  (ts.zip (calls.map vibrations)).filter fun p => p.2 ≠ []

/-! ## Sleep window (`sleep_time`) -/

/-- C1: for hour in 0..23 and minute in 0..59, `sleep_time` is true exactly when
hour >= 22, or hour = 21 and minute > 50, or hour <= 5; equivalently exactly
when hour*60+minute >= 1311 or hour*60+minute <= 359 (21:51 through 05:59). -/
theorem sleep_time_iff_window (now : PblTm)
    (hh : 0 ≤ now.tm_hour ∧ now.tm_hour ≤ 23) (hm : 0 ≤ now.tm_min ∧ now.tm_min ≤ 59) :
    (sleep_time now = true ↔
      (now.tm_hour ≥ 22 ∨ (now.tm_hour = 21 ∧ now.tm_min > 50) ∨ now.tm_hour ≤ 5)) ∧
    (sleep_time now = true ↔
      (now.tm_hour * 60 + now.tm_min ≥ 1311 ∨ now.tm_hour * 60 + now.tm_min ≤ 359)) := by
  obtain ⟨hh0, hh1⟩ := hh
  obtain ⟨hm0, hm1⟩ := hm
  unfold sleep_time VIBRATION_SLEEP_START VIBRATION_SLEEP_END COUNTDOWN_MINUTE
  constructor
  · split_ifs <;> simp <;> omega
  · split_ifs <;> simp <;> omega

/-- The boundary instants of the sleep window listed in the specification:
21:50 and 06:00 are outside, 21:51, 22:00 and 05:59 are inside. -/
theorem sleep_time_iff_window_witness :
    ((sleep_time ⟨0, 51, 21, 1, 0, 0⟩ = true ↔
      (((21 : Int) ≥ 22 ∨ ((21 : Int) = 21 ∧ (51 : Int) > 50) ∨ (21 : Int) ≤ 5))) ∧
     (sleep_time ⟨0, 51, 21, 1, 0, 0⟩ = true ↔
      ((21 : Int) * 60 + 51 ≥ 1311 ∨ (21 : Int) * 60 + 51 ≤ 359))) ∧
    sleep_time ⟨0, 50, 21, 1, 0, 0⟩ = false ∧
    sleep_time ⟨0, 51, 21, 1, 0, 0⟩ = true ∧
    sleep_time ⟨0, 0, 22, 1, 0, 0⟩ = true ∧
    sleep_time ⟨0, 59, 5, 1, 0, 0⟩ = true ∧
    sleep_time ⟨0, 0, 6, 1, 0, 0⟩ = false :=
  ⟨sleep_time_iff_window ⟨0, 51, 21, 1, 0, 0⟩ (by decide) (by decide),
   by decide, by decide, by decide, by decide, by decide⟩

/-! ## Table lookups for an in-range date -/

theorem date_months_get (mon : Int) (h0 : 0 ≤ mon) (h1 : mon ≤ 11) :
    ∃ month, table_get date_months mon = some month ∧ date_months[mon.toNat]? = some month ∧
      month.length ≤ 5 ∧ ∀ b ∈ month, b ≠ 0 := by
  interval_cases mon <;> exact ⟨_, rfl, rfl, by decide, by decide⟩

theorem date_days_get (wday : Int) (h0 : 0 ≤ wday) (h1 : wday ≤ 6) :
    ∃ day, table_get date_days wday = some day ∧ date_days[wday.toNat]? = some day ∧
      day.length ≤ 12 ∧ ∀ b ∈ day, b ≠ 0 := by
  interval_cases wday <;> exact ⟨_, rfl, rfl, by decide, by decide⟩

theorem update_date_calls (date_str : List Nat) (now : PblTm)
    (hmon : 0 ≤ now.tm_mon ∧ now.tm_mon ≤ 11) (hwday : 0 ≤ now.tm_wday ∧ now.tm_wday ≤ 6) :
    ∃ str text, update_date date_str now =
      some (str, [HostCall.text_layer_set_text LayerId.layer_date text]) := by
  obtain ⟨month, hm1, -⟩ := date_months_get now.tm_mon hmon.1 hmon.2
  obtain ⟨day, hd1, -⟩ := date_days_get now.tm_wday hwday.1 hwday.2
  unfold update_date
  rw [hm1, hd1]
  exact ⟨_, _, rfl⟩

theorem handle_tick_some (st : Statics) (t : PblTm)
    (hmon : 0 ≤ t.tm_mon ∧ t.tm_mon ≤ 11) (hwday : 0 ≤ t.tm_wday ∧ t.tm_wday ≤ 6) :
    ∃ r, handle_tick st t = some r := by
  obtain ⟨str, text, hd⟩ := update_date_calls st.date_str t hmon hwday
  unfold handle_tick
  simp only [hd]
  split_ifs <;> exact ⟨_, rfl⟩

/-! ## Vibration on a tick (`handle_tick`, `do_vibration`) -/

theorem vibrations_append (a b : List HostCall) :
    vibrations (a ++ b) = vibrations a ++ vibrations b := by
  simp [vibrations, List.filterMap_append]

theorem vibrations_update_analog_clock (t : PblTm) :
    vibrations (update_analog_clock t) = [] := by
  unfold update_analog_clock
  split_ifs <;> simp [vibrations]

theorem vibrations_update_digital_clock (buf : List Nat) (t : PblTm) :
    vibrations (update_digital_clock buf t).2 = [] := by
  simp [update_digital_clock, vibrations]

theorem vibrations_update_countdown (t : PblTm) :
    vibrations (update_countdown t) = [] := by
  simp [update_countdown, vibrations]

theorem vibrations_update_date (buf : List Nat) (t : PblTm) (r : List Nat × List HostCall)
    (h : update_date buf t = some r) : vibrations r.2 = [] := by
  unfold update_date at h
  split at h
  · simp only [Option.some.injEq] at h
    subst h
    simp [vibrations]
  · exact absurd h (by simp)

theorem vibrations_do_vibration (t : PblTm) :
    vibrations (do_vibration t) = if sleep_time t = false then [vibe_segments] else [] := by
  unfold do_vibration
  cases sleep_time t <;> simp [vibrations]

/-- The vibrations of one tick, whenever the tick handler returns. -/
theorem vibrations_handle_tick (st : Statics) (t : PblTm) (r : Statics × List HostCall)
    (h : handle_tick st t = some r) :
    vibrations r.2 =
      if t.tm_sec = 0 ∧ t.tm_min = 50 ∧ sleep_time t = false then [vibe_segments] else [] := by
  unfold handle_tick at h
  simp only [COUNTDOWN_MINUTE] at h
  split_ifs at h with hs hm hm0 hh0
  · simp only [Option.some.injEq] at h
    subst h
    simp [vibrations_append, vibrations_update_analog_clock, vibrations_update_digital_clock,
      vibrations_update_countdown, vibrations_do_vibration, hs, hm]
  · split at h
    · rename_i date hd
      simp only [Option.some.injEq] at h
      subst h
      simp [vibrations_append, vibrations_update_analog_clock, vibrations_update_digital_clock,
        vibrations_update_countdown, vibrations_update_date _ _ _ hd, hm]
    · exact absurd h (by simp)
  · simp only [Option.some.injEq] at h
    subst h
    simp [vibrations_append, vibrations_update_analog_clock, vibrations_update_digital_clock,
      vibrations_update_countdown, hm]
  · simp only [Option.some.injEq] at h
    subst h
    simp [vibrations_append, vibrations_update_analog_clock, vibrations_update_digital_clock,
      vibrations_update_countdown, hm]
  · simp only [Option.some.injEq] at h
    subst h
    simp [vibrations_update_analog_clock, hs]

/-- At minute 50 of a full minute the tick handler returns. -/
theorem handle_tick_at_alert (st : Statics) (t : PblTm) (hs : t.tm_sec = 0) (hm : t.tm_min = 50) :
    ∃ r, handle_tick st t = some r := by
  unfold handle_tick
  simp [hs, hm, COUNTDOWN_MINUTE]

/-- C2: for every tick time with hour in 0..23, minute in 0..59 and second in
0..59, `handle_tick` enqueues a vibration exactly when second = 0, minute = 50
and `sleep_time` is false; it then enqueues exactly one request, with the
durations 700, 100, 700, 100, 700. The handler returns for every tick whose
month and weekday are inside the two name tables. -/
theorem handle_tick_vibrates_iff (st : Statics) (t : PblTm)
    (_hh : 0 ≤ t.tm_hour ∧ t.tm_hour ≤ 23) (_hm : 0 ≤ t.tm_min ∧ t.tm_min ≤ 59)
    (_hs : 0 ≤ t.tm_sec ∧ t.tm_sec ≤ 59) :
    ((∃ r, handle_tick st t = some r ∧ vibrations r.2 ≠ []) ↔
      (t.tm_sec = 0 ∧ t.tm_min = 50 ∧ sleep_time t = false)) ∧
    ((t.tm_sec = 0 ∧ t.tm_min = 50 ∧ sleep_time t = false) →
      ∃ r, handle_tick st t = some r ∧ vibrations r.2 = [[700, 100, 700, 100, 700]]) ∧
    (((0 ≤ t.tm_mon ∧ t.tm_mon ≤ 11) ∧ (0 ≤ t.tm_wday ∧ t.tm_wday ≤ 6)) →
      ∃ r, handle_tick st t = some r) := by
  refine ⟨⟨?_, ?_⟩, ?_, ?_⟩
  · rintro ⟨r, hr, hv⟩
    rw [vibrations_handle_tick st t r hr] at hv
    by_contra hc
    simp [hc] at hv
  · intro hc
    obtain ⟨r, hr⟩ := handle_tick_at_alert st t hc.1 hc.2.1
    refine ⟨r, hr, ?_⟩
    rw [vibrations_handle_tick st t r hr]
    simp [hc]
  · intro hc
    obtain ⟨r, hr⟩ := handle_tick_at_alert st t hc.1 hc.2.1
    refine ⟨r, hr, ?_⟩
    rw [vibrations_handle_tick st t r hr]
    simp [hc, vibe_segments]
  · intro hd
    exact handle_tick_some st t hd.1 hd.2

/-- The tick 14:50:00 vibrates. -/
theorem handle_tick_vibrates_iff_witness :
    ((∃ r, handle_tick Statics.init ⟨0, 50, 14, 15, 0, 3⟩ = some r ∧ vibrations r.2 ≠ []) ↔
      ((0 : Int) = 0 ∧ (50 : Int) = 50 ∧ sleep_time ⟨0, 50, 14, 15, 0, 3⟩ = false)) ∧
    (((0 : Int) = 0 ∧ (50 : Int) = 50 ∧ sleep_time ⟨0, 50, 14, 15, 0, 3⟩ = false) →
      ∃ r, handle_tick Statics.init ⟨0, 50, 14, 15, 0, 3⟩ = some r ∧
        vibrations r.2 = [[700, 100, 700, 100, 700]]) ∧
    (((0 ≤ (0 : Int) ∧ (0 : Int) ≤ 11) ∧ (0 ≤ (3 : Int) ∧ (3 : Int) ≤ 6)) →
      ∃ r, handle_tick Statics.init ⟨0, 50, 14, 15, 0, 3⟩ = some r) :=
  handle_tick_vibrates_iff Statics.init ⟨0, 50, 14, 15, 0, 3⟩ (by decide) (by decide) (by decide)

/-- The examples of the specification: 14:50:00 vibrates once, 23:50:00 does not. -/
theorem handle_tick_vibration_examples :
    (handle_tick Statics.init ⟨0, 50, 14, 15, 0, 3⟩).map (fun r => vibrations r.2)
      = some [[700, 100, 700, 100, 700]] ∧
    (handle_tick Statics.init ⟨0, 50, 23, 15, 0, 3⟩).map (fun r => vibrations r.2) = some [] := by
  constructor <;> decide

/-! ## Minutes to the next vibration (`countdown_update`) -/

theorem minutes_to_vibrate_bounds (now : PblTm) (hm : 0 ≤ now.tm_min ∧ now.tm_min ≤ 59) :
    0 ≤ minutes_to_vibrate now ∧ minutes_to_vibrate now ≤ 59 := by
  obtain ⟨h0, h1⟩ := hm
  unfold minutes_to_vibrate COUNTDOWN_MINUTE
  split_ifs <;> omega

/-- C3: for every minute in 0..59 the minutes-to-vibrate value lies in 0..59 and
is 0 exactly when the minute is 50. -/
theorem minutes_to_vibrate_range (now : PblTm) (hm : 0 ≤ now.tm_min ∧ now.tm_min ≤ 59) :
    (0 ≤ minutes_to_vibrate now ∧ minutes_to_vibrate now ≤ 59) ∧
    (minutes_to_vibrate now = 0 ↔ now.tm_min = 50) := by
  obtain ⟨h0, h1⟩ := hm
  unfold minutes_to_vibrate COUNTDOWN_MINUTE
  split_ifs <;> omega

/-- The values listed in the specification: minute 50 gives 0, 49 gives 1,
51 gives 59 and 0 gives 50. -/
theorem minutes_to_vibrate_range_witness :
    ((0 ≤ minutes_to_vibrate ⟨0, 51, 9, 15, 0, 3⟩ ∧ minutes_to_vibrate ⟨0, 51, 9, 15, 0, 3⟩ ≤ 59) ∧
     (minutes_to_vibrate ⟨0, 51, 9, 15, 0, 3⟩ = 0 ↔ (51 : Int) = 50)) ∧
    minutes_to_vibrate ⟨0, 50, 9, 15, 0, 3⟩ = 0 ∧
    minutes_to_vibrate ⟨0, 49, 9, 15, 0, 3⟩ = 1 ∧
    minutes_to_vibrate ⟨0, 51, 9, 15, 0, 3⟩ = 59 ∧
    minutes_to_vibrate ⟨0, 0, 9, 15, 0, 3⟩ = 50 :=
  ⟨minutes_to_vibrate_range ⟨0, 51, 9, 15, 0, 3⟩ (by decide),
   by decide, by decide, by decide, by decide⟩

/-! ## The countdown text buffer (`countdown_update`) -/

theorem format_d_eq_decimal_digits (n : Int) (h0 : 0 ≤ n) (h1 : n ≤ 59) :
    format_d n = decimal_digits n := by
  interval_cases n <;> decide

/-- One rendering of the countdown from a buffer whose bytes 2, 3 and 4 are
NUL: what is drawn, and the buffer keeps that shape. -/
theorem countdown_update_step (a b : Nat) (now : PblTm)
    (hm : 0 ≤ now.tm_min ∧ now.tm_min ≤ 59) :
    (∃ a1 b1, (countdown_update [a, b, 0, 0, 0] now).1 = [a1, b1, 0, 0, 0]) ∧
    (countdown_update [a, b, 0, 0, 0] now).2 = countdown_drawing_spec now := by
  have hlit : c_literal "--" = [45, 45] := by decide
  unfold countdown_drawing_spec
  cases hs : sleep_time now
  · have hr := (minutes_to_vibrate_bounds now hm)
    have hf := format_d_eq_decimal_digits _ hr.1 hr.2
    by_cases h10 : minutes_to_vibrate now < 10
    · simp [countdown_update, hs, hf, decimal_digits, h10, snprintf, write_bytes, c_string]
    · simp [countdown_update, hs, hf, decimal_digits, h10, snprintf, write_bytes, c_string]
  · simp [countdown_update, hs, hlit, strncpy, write_bytes, c_string]

theorem countdown_updates_shape (ts : List PblTm)
    (hv : ∀ t ∈ ts, 0 ≤ t.tm_min ∧ t.tm_min ≤ 59) (a b : Nat) :
    (∃ a1 b1, (countdown_updates [a, b, 0, 0, 0] ts).1 = [a1, b1, 0, 0, 0]) ∧
    (countdown_updates [a, b, 0, 0, 0] ts).2 = ts.map countdown_drawing_spec := by
  induction ts generalizing a b with
  | nil => exact ⟨⟨a, b, rfl⟩, rfl⟩
  | cons t rest ih =>
    obtain ⟨⟨a1, b1, hbuf⟩, hdraw⟩ := countdown_update_step a b t (hv t (List.mem_cons_self t rest))
    have hrest := ih (fun u hu => hv u (List.mem_cons_of_mem t hu)) a1 b1
    simp only [countdown_updates, hbuf, hdraw, List.map_cons]
    exact ⟨hrest.1, by rw [hrest.2]⟩

/-- C4: for every sequence of renderings of the countdown with valid times,
starting from the initial buffer "--", each rendering draws the vibe-off icon
and exactly the text "--" when `sleep_time` is true, and the vibe-on icon and
the one or two decimal digits of the minutes-to-vibrate value when it is false;
after every call the buffer still has 5 bytes and its byte 2 is NUL. -/
theorem countdown_updates_draw (ts : List PblTm)
    (hv : ∀ t ∈ ts, (0 ≤ t.tm_hour ∧ t.tm_hour ≤ 23) ∧ (0 ≤ t.tm_min ∧ t.tm_min ≤ 59)) :
    (countdown_updates countdown_str_init ts).2 = ts.map countdown_drawing_spec ∧
    (countdown_updates countdown_str_init ts).1.length = 5 ∧
    (countdown_updates countdown_str_init ts).1[2]? = some 0 := by
  obtain ⟨⟨a1, b1, hbuf⟩, hdraw⟩ :=
    countdown_updates_shape ts (fun t ht => (hv t ht).2) 45 45
  unfold countdown_str_init
  rw [hbuf]
  exact ⟨hdraw, rfl, rfl⟩

/-- Three renderings in a row, at 12:45 (shows "5"), 23:10 (shows "--", over
the one-digit text) and 12:38 (shows "12"). -/
theorem countdown_updates_draw_witness :
    (countdown_updates countdown_str_init
        [⟨0, 45, 12, 15, 0, 3⟩, ⟨0, 10, 23, 15, 0, 3⟩, ⟨0, 38, 12, 15, 0, 3⟩]).2
      = [[DrawCmd.graphics_draw_bitmap_in_rect ICON_VIBE_ON countdown_icon_rect,
          DrawCmd.graphics_text_draw [53] FONT_COUNTDOWN countdown_text_rect
            GTextAlignment.GTextAlignmentCenter],
         [DrawCmd.graphics_draw_bitmap_in_rect ICON_VIBE_OFF countdown_icon_rect,
          DrawCmd.graphics_text_draw [45, 45] FONT_COUNTDOWN countdown_text_rect
            GTextAlignment.GTextAlignmentCenter],
         [DrawCmd.graphics_draw_bitmap_in_rect ICON_VIBE_ON countdown_icon_rect,
          DrawCmd.graphics_text_draw [49, 50] FONT_COUNTDOWN countdown_text_rect
            GTextAlignment.GTextAlignmentCenter]] ∧
    (countdown_updates countdown_str_init
        [⟨0, 45, 12, 15, 0, 3⟩, ⟨0, 10, 23, 15, 0, 3⟩, ⟨0, 38, 12, 15, 0, 3⟩]).1[2]? = some 0 := by
  have h := countdown_updates_draw
    [⟨0, 45, 12, 15, 0, 3⟩, ⟨0, 10, 23, 15, 0, 3⟩, ⟨0, 38, 12, 15, 0, 3⟩] (by decide)
  refine ⟨?_, h.2.2⟩
  rw [h.1]
  decide

/-! ## The date text (`update_date`) -/

theorem c_string_snprintf (buf : List Nat) (size : Nat) (formatted : List Nat)
    (hlen : formatted.length < size) (hnul : ∀ b ∈ formatted, b ≠ 0) :
    c_string (snprintf buf size formatted) = formatted := by
  have hsize : size ≠ 0 := by omega
  have htake : formatted.take (size - 1) = formatted := List.take_of_length_le (by omega)
  simp only [snprintf, hsize, if_false, write_bytes, htake, c_string, List.append_assoc]
  generalize List.drop (formatted ++ [0]).length buf = rest
  induction formatted with
  | nil => simp
  | cons b bs ih =>
    have hb : b ≠ 0 := hnul b (List.mem_cons_self b bs)
    have hbs : ∀ c ∈ bs, c ≠ 0 := fun c hc => hnul c (List.mem_cons_of_mem b hc)
    simp only [List.length_cons] at hlen
    have ih1 := ih (by omega) hbs (List.take_of_length_le (by omega))
    simp only [List.cons_append, List.takeWhile_cons, bne_iff_ne, ne_eq, hb, not_false_eq_true,
      decide_True, if_true]
    simp only [List.singleton_append] at ih1
    simp [ih1]

theorem decimal_digits_props (n : Int) (h0 : 0 ≤ n) (h1 : n ≤ 59) :
    (decimal_digits n).length ≤ 2 ∧ ∀ b ∈ decimal_digits n, b ≠ 0 := by
  interval_cases n <;> exact ⟨by decide, by decide⟩

/-- The date text for an in-range date, from any earlier content of the buffer. -/
theorem update_date_text (date_str : List Nat) (now : PblTm)
    (hmon : 0 ≤ now.tm_mon ∧ now.tm_mon ≤ 11) (hday : 1 ≤ now.tm_mday ∧ now.tm_mday ≤ 31)
    (hwday : 0 ≤ now.tm_wday ∧ now.tm_wday ≤ 6) :
    ∃ month day, date_months[now.tm_mon.toNat]? = some month ∧
      date_days[now.tm_wday.toNat]? = some day ∧
      update_date date_str now =
        some (snprintf date_str 50 (format_date month now.tm_mday day),
          [HostCall.text_layer_set_text LayerId.layer_date
            (month ++ c_literal " " ++ decimal_digits now.tm_mday ++ c_literal ". " ++ day)]) ∧
      (month ++ c_literal " " ++ decimal_digits now.tm_mday ++ c_literal ". " ++ day).length
        + 1 ≤ 50 := by
  obtain ⟨month, hm1, hm2, hm3, hm4⟩ := date_months_get now.tm_mon hmon.1 hmon.2
  obtain ⟨day, hd1, hd2, hd3, hd4⟩ := date_days_get now.tm_wday hwday.1 hwday.2
  obtain ⟨hn1, hn2⟩ := decimal_digits_props now.tm_mday (by omega) (by omega)
  have hf := format_d_eq_decimal_digits now.tm_mday (by omega) (by omega)
  have hsp : c_literal " " = [32] := by decide
  have hdot : c_literal ". " = [46, 32] := by decide
  have hfmt : format_date month now.tm_mday day
      = month ++ c_literal " " ++ decimal_digits now.tm_mday ++ c_literal ". " ++ day := by
    simp [format_date, hf, hsp, hdot]
  have hlen : (format_date month now.tm_mday day).length < 50 := by
    rw [hfmt, hsp, hdot]
    simp only [List.length_append, List.length_cons, List.length_nil]
    omega
  have hnul : ∀ b ∈ format_date month now.tm_mday day, b ≠ 0 := by
    rw [hfmt, hsp, hdot]
    intro b hb
    simp only [List.mem_append, List.mem_cons, List.mem_singleton, List.not_mem_nil,
      or_false] at hb
    rcases hb with (((hb | hb) | hb) | hb) | hb
    · exact hm4 b hb
    · omega
    · exact hn2 b hb
    · omega
    · exact hd4 b hb
  refine ⟨month, day, hm2, hd2, ?_, ?_⟩
  · unfold update_date
    rw [hm1, hd1]
    have hc := c_string_snprintf date_str 50 _ hlen hnul
    rw [hfmt] at hc
    simp only [hfmt, hc]
  · rw [← hfmt]
    omega

/-- C6: for month in 0..11, day of month in 1..31 and weekday in 0..6,
`update_date` reads both tables in bounds and sets the date text to exactly
the month name, a blank, the day in decimal, a full stop and a blank, and the
weekday name; the text with its NUL fits the 50-byte buffer. -/
theorem update_date_sets_text (date_str : List Nat) (now : PblTm)
    (hmon : 0 ≤ now.tm_mon ∧ now.tm_mon ≤ 11) (hday : 1 ≤ now.tm_mday ∧ now.tm_mday ≤ 31)
    (hwday : 0 ≤ now.tm_wday ∧ now.tm_wday ≤ 6) :
    ∃ month day, date_months[now.tm_mon.toNat]? = some month ∧
      date_days[now.tm_wday.toNat]? = some day ∧
      (update_date date_str now).map (fun r => r.2) =
        some [HostCall.text_layer_set_text LayerId.layer_date
          (month ++ c_literal " " ++ decimal_digits now.tm_mday ++ c_literal ". " ++ day)] ∧
      (month ++ c_literal " " ++ decimal_digits now.tm_mday ++ c_literal ". " ++ day).length
        + 1 ≤ 50 := by
  obtain ⟨month, day, h1, h2, h3, h4⟩ := update_date_text date_str now hmon hday hwday
  exact ⟨month, day, h1, h2, by rw [h3]; rfl, h4⟩

/-- The example of the specification: weekday 3, day 15, month 0 gives the text
"Jan 15. Szerda". -/
theorem update_date_sets_text_witness :
    (∃ month day, date_months[(0 : Int).toNat]? = some month ∧
      date_days[(3 : Int).toNat]? = some day ∧
      (update_date (List.replicate 50 0) ⟨30, 5, 9, 15, 0, 3⟩).map (fun r => r.2) =
        some [HostCall.text_layer_set_text LayerId.layer_date
          (month ++ c_literal " " ++ decimal_digits 15 ++ c_literal ". " ++ day)] ∧
      (month ++ c_literal " " ++ decimal_digits 15 ++ c_literal ". " ++ day).length + 1 ≤ 50) ∧
    (update_date (List.replicate 50 0) ⟨30, 5, 9, 15, 0, 3⟩).map (fun r => r.2) =
      some [HostCall.text_layer_set_text LayerId.layer_date (c_literal "Jan 15. Szerda")] :=
  ⟨update_date_sets_text (List.replicate 50 0) ⟨30, 5, 9, 15, 0, 3⟩
    (by decide) (by decide) (by decide), by decide⟩

/-! ## The window-appear handler (`handle_window_appear`) -/

/-- C5, as the code has it: on the window-appear event, for every current time
with month in 0..11 and weekday in 0..6, `handle_window_appear` issues exactly
one request for the digital text, the date text, the second hand and the
countdown region whatever the second and minute are; it requests the minute
hand (once) only when second = 0, the hour hand (once) only when second = 0
and minute % 12 = 0, and never the analog background. -/
theorem handle_window_appear_requests (st : Statics) (now : PblTm)
    (hmon : 0 ≤ now.tm_mon ∧ now.tm_mon ≤ 11) (hwday : 0 ≤ now.tm_wday ∧ now.tm_wday ≤ 6) :
    ∃ r, handle_window_appear st now = some r ∧
      requests LayerId.layer_clock_digital r.2 = 1 ∧
      requests LayerId.layer_date r.2 = 1 ∧
      requests LayerId.layer_clock_analog_second r.2 = 1 ∧
      requests LayerId.layer_countdown r.2 = 1 ∧
      requests LayerId.layer_clock_analog_minute r.2 = (if now.tm_sec = 0 then 1 else 0) ∧
      requests LayerId.layer_clock_analog_hour r.2
        = (if now.tm_sec = 0 ∧ now.tm_min.tmod 12 = 0 then 1 else 0) ∧
      requests LayerId.layer_clock_analog_background r.2 = 0 := by
  obtain ⟨str, text, hd⟩ := update_date_calls st.date_str now hmon hwday
  unfold handle_window_appear
  simp only [hd]
  refine ⟨_, rfl, ?_⟩
  simp only [update_analog_clock, update_digital_clock, update_countdown, requests]
  by_cases hs : now.tm_sec = 0 <;> by_cases hm : now.tm_min.tmod 12 = 0 <;>
    simp [hs, hm, HostCall.target]

/-- The window appears at 09:05:30 on a Wednesday 15 January. -/
theorem handle_window_appear_requests_witness :
    ∃ r, handle_window_appear Statics.init ⟨30, 5, 9, 15, 0, 3⟩ = some r ∧
      requests LayerId.layer_clock_digital r.2 = 1 ∧
      requests LayerId.layer_date r.2 = 1 ∧
      requests LayerId.layer_clock_analog_second r.2 = 1 ∧
      requests LayerId.layer_countdown r.2 = 1 ∧
      requests LayerId.layer_clock_analog_minute r.2 = (if (30 : Int) = 0 then 1 else 0) ∧
      requests LayerId.layer_clock_analog_hour r.2
        = (if (30 : Int) = 0 ∧ (5 : Int).tmod 12 = 0 then 1 else 0) ∧
      requests LayerId.layer_clock_analog_background r.2 = 0 :=
  handle_window_appear_requests Statics.init ⟨30, 5, 9, 15, 0, 3⟩ (by decide) (by decide)

/-- C5 as stated fails: when the window appears at 09:05:30 the handler makes
four host calls, and none of them asks for the hour hand, the minute hand or
the analog background, so these three regions do not get one request each. -/
theorem handle_window_appear_0905_30 :
    (handle_window_appear Statics.init ⟨30, 5, 9, 15, 0, 3⟩).map (fun r => r.2) =
      some [HostCall.layer_mark_dirty LayerId.layer_clock_analog_second,
            HostCall.text_layer_set_text LayerId.layer_clock_digital (c_literal "09:05"),
            HostCall.layer_mark_dirty LayerId.layer_countdown,
            HostCall.text_layer_set_text LayerId.layer_date (c_literal "Jan 15. Szerda")] ∧
    (handle_window_appear Statics.init ⟨30, 5, 9, 15, 0, 3⟩).map
        (fun r => (requests LayerId.layer_clock_analog_hour r.2,
                   requests LayerId.layer_clock_analog_minute r.2,
                   requests LayerId.layer_clock_analog_background r.2)) = some (0, 0, 0) ∧
    ¬ (∃ r, handle_window_appear Statics.init ⟨30, 5, 9, 15, 0, 3⟩ = some r ∧
        ∀ l : LayerId, requests l r.2 = 1) := by
  refine ⟨by decide, by decide, ?_⟩
  rintro ⟨r, hr, hall⟩
  have h0 : (handle_window_appear Statics.init ⟨30, 5, 9, 15, 0, 3⟩).map
      (fun r => requests LayerId.layer_clock_analog_hour r.2) = some 0 := by decide
  rw [hr] at h0
  have h1 := hall LayerId.layer_clock_analog_hour
  simp only [Option.map_some', Option.some.injEq] at h0
  omega

/-! ## Tick marks of the dial (`analog_clock_update_background`) -/

theorem tick_line_length_eq (m : Int) (h0 : 0 ≤ m) :
    tick_line_length m = if m % 15 = 0 then 5 else if m % 5 = 0 then 3 else 1 := by
  unfold tick_line_length
  rw [Int.tmod_eq_emod h0 (by decide), Int.tmod_eq_emod h0 (by decide)]

/-- The tick loop entered at `60 - k` draws the `k` remaining ticks. -/
theorem background_ticks_from (T : Trig) (k : Nat) (hk : k ≤ 60) :
    background_ticks T ((60 - k : Nat) : Int) =
      (List.range' (60 - k) k).map fun i : Nat =>
        DrawCmd.graphics_draw_line
          (T.point (ANALOG_RADIUS - tick_line_length i) i) (T.point ANALOG_RADIUS i) := by
  induction k with
  | zero =>
    rw [background_ticks]
    rfl
  | succ k ih =>
    rw [background_ticks]
    have hlt : (((60 - (k + 1) : Nat) : Int)) < 60 := by omega
    have hnext : (((60 - (k + 1) : Nat) : Int)) + 1 = ((60 - k : Nat) : Int) := by omega
    have hn : 60 - (k + 1) + 1 = 60 - k := by omega
    rw [if_pos hlt, hnext, ih (by omega), List.range'_succ, List.map_cons, hn]

theorem drawn_lines_background (T : Trig) :
    drawn_lines (analog_clock_update_background T) =
      (List.range' 0 60).map fun i : Nat =>
        (T.point (ANALOG_RADIUS - tick_line_length i) i, T.point ANALOG_RADIUS i) := by
  have h := background_ticks_from T 60 (le_refl 60)
  simp only [Nat.sub_self, Nat.cast_zero] at h
  unfold analog_clock_update_background
  rw [h]
  simp only [drawn_lines, List.filterMap_append, List.filterMap_map, Function.comp_def,
    List.filterMap_cons, List.filterMap_nil, List.append_nil, List.nil_append]
  generalize List.range' 0 60 = l
  induction l with
  | nil => rfl
  | cons a l ih => simp only [List.filterMap_cons, List.map_cons, ih]

/-- C7: for every minute mark m in 0..59 the tick length left by the two `if`
statements is 5 if m % 15 = 0, else 3 if m % 5 = 0, else 1; the background
draws exactly 60 lines, and its line number m is the tick of mark m, from
radius 32 minus that length to radius 32. -/
theorem background_tick_of_mark (T : Trig) (m : Nat) (hm : m < 60) :
    tick_line_length m = (if m % 15 = 0 then 5 else if m % 5 = 0 then 3 else 1) ∧
    (drawn_lines (analog_clock_update_background T)).length = 60 ∧
    (drawn_lines (analog_clock_update_background T))[m]? =
      some (T.point (32 - (if m % 15 = 0 then 5 else if m % 5 = 0 then 3 else 1)) m,
            T.point 32 m) := by
  have hlen : tick_line_length m = (if m % 15 = 0 then 5 else if m % 5 = 0 then 3 else 1) := by
    rw [tick_line_length_eq m (by omega)]
    have h15 : ((m : Int) % 15 = 0) ↔ (m % 15 = 0) := by omega
    have h5 : ((m : Int) % 5 = 0) ↔ (m % 5 = 0) := by omega
    simp only [h15, h5]
  refine ⟨hlen, ?_, ?_⟩
  · rw [drawn_lines_background]
    simp
  · rw [drawn_lines_background, List.getElem?_map, List.getElem?_range' _ _ hm]
    simp only [Option.map_some', zero_add, one_mul, hlen, ANALOG_RADIUS]

/-- The marks 0, 5 and 7 have tick lengths 5, 3 and 1. -/
theorem background_tick_of_mark_witness :
    (tick_line_length (5 : Nat) = (if 5 % 15 = 0 then 5 else if 5 % 5 = 0 then 3 else 1) ∧
     (drawn_lines (analog_clock_update_background ⟨fun r m => ⟨r, m⟩⟩)).length = 60 ∧
     (drawn_lines (analog_clock_update_background ⟨fun r m => ⟨r, m⟩⟩))[5]? =
       some ((⟨fun r m => ⟨r, m⟩⟩ : Trig).point
               (32 - (if 5 % 15 = 0 then 5 else if 5 % 5 = 0 then 3 else 1)) (5 : Nat),
             (⟨fun r m => ⟨r, m⟩⟩ : Trig).point 32 (5 : Nat))) ∧
    tick_line_length 0 = 5 ∧ tick_line_length 5 = 3 ∧ tick_line_length 7 = 1 :=
  ⟨background_tick_of_mark ⟨fun r m => ⟨r, m⟩⟩ 5 (by decide), by decide, by decide, by decide⟩

/-! ## The hour hand (`analog_clock_update_hour`, `update_analog_clock`) -/

/-- C10: for hour in 0..23 and minute in 0..59 the unit value of the hour hand,
hour*5 + minute/12, differs from its value one minute earlier only if
minute % 12 = 0 (and then it does); `update_analog_clock` marks the hour-hand
layer dirty exactly when second = 0 and minute % 12 = 0; twelve hours later the
unit value is larger by exactly 60, which is 360 degrees of `angle_from_minute`. -/
theorem hour_hand_redraw_gating (now : PblTm)
    (hh : 0 ≤ now.tm_hour ∧ now.tm_hour ≤ 23) (hm : 0 ≤ now.tm_min ∧ now.tm_min ≤ 59) :
    (hour_minutes now ≠ hour_minutes (minute_before now) ↔ now.tm_min % 12 = 0) ∧
    (HostCall.layer_mark_dirty LayerId.layer_clock_analog_hour ∈ update_analog_clock now ↔
      (now.tm_sec = 0 ∧ now.tm_min % 12 = 0)) ∧
    hour_minutes { now with tm_hour := now.tm_hour + 12 } = hour_minutes now + 60 ∧
    angle_from_minute_degrees (hour_minutes now + 60)
      = angle_from_minute_degrees (hour_minutes now) + 360 := by
  obtain ⟨hh0, hh1⟩ := hh
  obtain ⟨hm0, hm1⟩ := hm
  refine ⟨?_, ?_, ?_, ?_⟩
  · unfold minute_before hour_minutes
    split_ifs with h0
    · simp only [h0]
      have h59 : (59 : Int).tdiv 12 = 4 := by decide
      have h00 : (0 : Int).tdiv 12 = 0 := by decide
      rw [h59, h00]
      omega
    · simp only
      rw [Int.tdiv_eq_ediv hm0 (by decide), Int.tdiv_eq_ediv (by omega) (by decide)]
      omega
  · unfold update_analog_clock
    rw [Int.tmod_eq_emod hm0 (by decide)]
    split_ifs <;> simp_all
  · unfold hour_minutes
    simp only
    omega
  · unfold angle_from_minute_degrees
    omega

/-- At 09:24:00 the unit value moves from 46 to 47 and the hour hand is marked. -/
theorem hour_hand_redraw_gating_witness :
    ((hour_minutes ⟨0, 24, 9, 15, 0, 3⟩ ≠ hour_minutes (minute_before ⟨0, 24, 9, 15, 0, 3⟩) ↔
        (24 : Int) % 12 = 0) ∧
     (HostCall.layer_mark_dirty LayerId.layer_clock_analog_hour
          ∈ update_analog_clock ⟨0, 24, 9, 15, 0, 3⟩ ↔
        ((0 : Int) = 0 ∧ (24 : Int) % 12 = 0)) ∧
     hour_minutes { (⟨0, 24, 9, 15, 0, 3⟩ : PblTm) with tm_hour := 9 + 12 }
       = hour_minutes ⟨0, 24, 9, 15, 0, 3⟩ + 60 ∧
     angle_from_minute_degrees (hour_minutes ⟨0, 24, 9, 15, 0, 3⟩ + 60)
       = angle_from_minute_degrees (hour_minutes ⟨0, 24, 9, 15, 0, 3⟩) + 360) ∧
    hour_minutes ⟨0, 24, 9, 15, 0, 3⟩ = 47 ∧
    hour_minutes (minute_before ⟨0, 24, 9, 15, 0, 3⟩) = 46 :=
  ⟨hour_hand_redraw_gating ⟨0, 24, 9, 15, 0, 3⟩ (by decide) (by decide), by decide, by decide⟩

/-! ## One day of ticks (`handle_tick`, `do_vibration`, `sleep_time`) -/

theorem handle_ticks_vibrations (ts : List PblTm)
    (hv : ∀ t ∈ ts, (0 ≤ t.tm_mon ∧ t.tm_mon ≤ 11) ∧ (0 ≤ t.tm_wday ∧ t.tm_wday ≤ 6))
    (st : Statics) :
    ∃ r, handle_ticks st ts = some r ∧ r.2.map vibrations = ts.map tick_vibrations := by
  induction ts generalizing st with
  | nil => exact ⟨_, rfl, rfl⟩
  | cons t rest ih =>
    have ht := hv t (List.mem_cons_self t rest)
    obtain ⟨r, hr⟩ := handle_tick_some st t ht.1 ht.2
    obtain ⟨rs, hrs, hmap⟩ := ih (fun u hu => hv u (List.mem_cons_of_mem t hu)) r.1
    refine ⟨(rs.1, r.2 :: rs.2), ?_, ?_⟩
    · simp only [handle_ticks, hr, hrs]
    · simp only [List.map_cons, hmap, vibrations_handle_tick st t r hr, tick_vibrations]

theorem flatMap_range_single {α : Type} (F : Nat → List α) (k n : Nat) (hk : k < n)
    (hF : ∀ i, i < n → i ≠ k → F i = []) : (List.range n).flatMap F = F k := by
  induction n with
  | zero => omega
  | succ n ih =>
    rw [List.range_succ, List.flatMap_append]
    simp only [List.flatMap_cons, List.flatMap_nil, List.append_nil]
    by_cases hkn : k = n
    · subst hkn
      have hnil : (List.range k).flatMap F = [] := by
        rw [List.flatMap_eq_nil_iff]
        intro i hi
        rw [List.mem_range] at hi
        exact hF i (by omega) (by omega)
      rw [hnil, List.nil_append]
    · rw [ih (by omega) (fun i hi hne => hF i (by omega) hne), hF n (by omega) (by omega),
        List.append_nil]

theorem filter_map_eq_flatMap {α β : Type} (p : β → Bool) (f : α → β) (l : List α) :
    (l.map f).filter p = l.flatMap fun a => if p (f a) then [f a] else [] := by
  induction l with
  | nil => rfl
  | cons a l ih =>
    simp only [List.map_cons, List.flatMap_cons, List.filter_cons, ih]
    split_ifs <;> simp

theorem zip_map_self {α β : Type} (g : α → β) (l : List α) :
    l.zip (l.map g) = l.map fun a => (a, g a) := by
  induction l with
  | nil => rfl
  | cons a l ih => simp only [List.map_cons, List.zip_cons_cons, ih]

/-- The ticks of a day that vibrate are 06:50:00, 07:50:00, ..., 21:50:00. -/
theorem day_ticks_vibrating (mday mon wday : Int) :
    (day_ticks mday mon wday).filter (fun t => decide (tick_vibrations t ≠ [])) =
      (List.range 16).map fun i : Nat => (⟨0, 50, 6 + i, mday, mon, wday⟩ : PblTm) := by
  unfold day_ticks
  rw [List.filter_flatMap]
  simp only [List.filter_flatMap, filter_map_eq_flatMap]
  have hinner : ∀ h m : Nat,
      ((List.range 60).flatMap fun s : Nat =>
        if decide (tick_vibrations ⟨s, m, h, mday, mon, wday⟩ ≠ []) = true
          then [(⟨s, m, h, mday, mon, wday⟩ : PblTm)] else [])
      = if decide (tick_vibrations ⟨0, m, h, mday, mon, wday⟩ ≠ []) = true
          then [(⟨0, m, h, mday, mon, wday⟩ : PblTm)] else [] := by
    intro h m
    rw [flatMap_range_single _ 0 60 (by decide)]
    · rfl
    · intro i _ hne
      have hi : (i : Int) ≠ 0 := by omega
      simp [tick_vibrations, hi]
  simp only [hinner]
  have hmid : ∀ h : Nat,
      ((List.range 60).flatMap fun m : Nat =>
        if decide (tick_vibrations ⟨0, m, h, mday, mon, wday⟩ ≠ []) = true
          then [(⟨0, m, h, mday, mon, wday⟩ : PblTm)] else [])
      = if decide (tick_vibrations ⟨0, 50, h, mday, mon, wday⟩ ≠ []) = true
          then [(⟨0, 50, h, mday, mon, wday⟩ : PblTm)] else [] := by
    intro h
    rw [flatMap_range_single _ 50 60 (by decide)]
    · rfl
    · intro i _ hne
      have hi : (i : Int) ≠ 50 := by omega
      simp [tick_vibrations, hi]
  simp only [hmid]
  have h24 : List.range 24 = [0, 1, 2, 3, 4, 5, 6, 7, 8, 9, 10, 11, 12, 13, 14, 15, 16, 17,
      18, 19, 20, 21, 22, 23] := by decide
  have h16 : List.range 16 = [0, 1, 2, 3, 4, 5, 6, 7, 8, 9, 10, 11, 12, 13, 14, 15] := by decide
  rw [h24, h16]
  simp [tick_vibrations, sleep_time, VIBRATION_SLEEP_START, VIBRATION_SLEEP_END,
    COUNTDOWN_MINUTE, vibe_segments]

theorem day_ticks_valid (mday mon wday : Int) (t : PblTm) (ht : t ∈ day_ticks mday mon wday) :
    t.tm_mon = mon ∧ t.tm_wday = wday := by
  unfold day_ticks at ht
  simp only [List.mem_flatMap, List.mem_map] at ht
  obtain ⟨h, -, m, -, s, -, rfl⟩ := ht
  exact ⟨rfl, rfl⟩

theorem day_ticks_length (mday mon wday : Int) : (day_ticks mday mon wday).length = 86400 := by
  simp [day_ticks, List.length_flatMap, Function.comp_def]

/-- C9: over one day of ticks, each of the 86400 times delivered once to
`handle_tick`, a vibration is enqueued at exactly the 16 instants hh:50:00 with
hh in 6..21, one pattern each; at minute 50 `sleep_time` depends only on the
hour, 21:50 is outside the sleep window, 05:50 and 22:50 are inside it. -/
theorem day_of_ticks_vibrations (st : Statics) (mday mon wday : Int)
    (hmon : 0 ≤ mon ∧ mon ≤ 11) (hwday : 0 ≤ wday ∧ wday ≤ 6) :
    (∃ r, handle_ticks st (day_ticks mday mon wday) = some r ∧ r.2.length = 86400 ∧
      vibration_log (day_ticks mday mon wday) r.2 =
        (List.range 16).map fun i : Nat =>
          ((⟨0, 50, 6 + i, mday, mon, wday⟩ : PblTm), [[700, 100, 700, 100, 700]])) ∧
    (∀ t : PblTm, t.tm_min = 50 → (sleep_time t = true ↔ (t.tm_hour ≥ 22 ∨ t.tm_hour ≤ 5))) ∧
    sleep_time ⟨0, 50, 21, mday, mon, wday⟩ = false ∧
    sleep_time ⟨0, 50, 5, mday, mon, wday⟩ = true ∧
    sleep_time ⟨0, 50, 22, mday, mon, wday⟩ = true := by
  refine ⟨?_, ?_, rfl, rfl, rfl⟩
  · obtain ⟨r, hr, hmap⟩ := handle_ticks_vibrations (day_ticks mday mon wday)
      (fun t ht => by
        obtain ⟨h1, h2⟩ := day_ticks_valid mday mon wday t ht
        rw [h1, h2]
        exact ⟨hmon, hwday⟩) st
    refine ⟨r, hr, ?_, ?_⟩
    · have hl := congrArg List.length hmap
      simpa [day_ticks_length] using hl
    · unfold vibration_log
      rw [hmap, zip_map_self, List.filter_map]
      have hp : ((fun p : PblTm × List (List Nat) => decide (p.2 ≠ [])) ∘
          fun a => (a, tick_vibrations a)) = fun t => decide (tick_vibrations t ≠ []) := rfl
      rw [hp, day_ticks_vibrating, List.map_map]
      apply List.map_congr_left
      intro i hi
      rw [List.mem_range] at hi
      have hs : sleep_time ⟨0, 50, 6 + (i : Int), mday, mon, wday⟩ = false := by
        simp only [sleep_time, VIBRATION_SLEEP_START, VIBRATION_SLEEP_END, COUNTDOWN_MINUTE]
        split_ifs <;> first | rfl | omega
      simp [tick_vibrations, vibe_segments, hs]
  · intro t ht
    unfold sleep_time VIBRATION_SLEEP_START VIBRATION_SLEEP_END COUNTDOWN_MINUTE
    rw [ht]
    split_ifs <;> simp <;> omega

/-- The day of Wednesday 15 January, from the zero-initialised buffers. -/
theorem day_of_ticks_vibrations_witness :
    (0 ≤ (0 : Int) ∧ (0 : Int) ≤ 11) ∧ (0 ≤ (3 : Int) ∧ (3 : Int) ≤ 6) ∧
    ∃ r, handle_ticks Statics.init (day_ticks 15 0 3) = some r ∧ r.2.length = 86400 ∧
      vibration_log (day_ticks 15 0 3) r.2 =
        (List.range 16).map fun i : Nat =>
          ((⟨0, 50, 6 + i, 15, 0, 3⟩ : PblTm), [[700, 100, 700, 100, 700]]) :=
  ⟨by decide, by decide,
   (day_of_ticks_vibrations Statics.init 15 0 3 (by decide) (by decide)).1⟩

/-! ## The degree argument of `angle_from_minute` -/

/-- The integer part of `angle_from_minute`: mark 0 is at -90 degrees, each
mark adds 6 degrees, 60 marks a full turn. The conversion to radians by
`degtorad` is `double` arithmetic and is not embedded. -/
theorem angle_from_minute_degrees_step (min : Int) :
    angle_from_minute_degrees 0 = -90 ∧
    angle_from_minute_degrees (min + 1) = angle_from_minute_degrees min + 6 ∧
    angle_from_minute_degrees (min + 60) = angle_from_minute_degrees min + 360 := by
  unfold angle_from_minute_degrees
  omega

end RabbFerenc
